import Mathlib

/-!
# Frontend gateway (`src/frontend/app.js`)

A shallow embedding of the Express handlers of the frontend gateway and of its
socket.io connection handler.

Every handler is an `async` function whose only interactions with the outside
are calls of library methods: `axios.get` / `axios.post` (the authoritative
store), `res.render` / `res.redirect` / `res.send` / `res.status(..).send` (the
HTTP response), `console.log` / `console.error`, and the socket.io methods.
Each such call is recorded, in program order, as one `Effect` of a trace.  What
an awaited axios promise settles to is not decided by the program, so the
`Axios` client is a parameter of every handler.  Request fields that are
interpolated into template literals are taken as strings, and the response and
console methods are taken to return normally, so that the awaited store call is
the only statement of a handler that can throw.
-/

namespace Frontend

/-! ## Values exchanged with the store -/

/-- The settled value of a fulfilled axios promise: `response.status`, `response.data`. -/
structure AxiosResponse where
  status : Nat
  data : String
  deriving DecidableEq, Repr

/-- The reason of a rejected axios promise.  `response` is an answer of the store
with a status outside 2xx (an explicit store-reported error); `timeout` is a
transport-level timeout, no response observed; `network` is any other transport
failure, identified by its code (`ECONNREFUSED`, ...). -/
inductive AxiosError where
  | response (status : Nat) (data : String)
  | timeout
  | network (code : String)
  deriving DecidableEq, Repr

/-- The object literal `{ value }` posted to the store by `POST /add`. -/
structure Payload where
  value : String
  deriving DecidableEq, Repr

/-- The axios client as the handlers use it: what `await axios.get(url)` and
`await axios.post(url, data)` settle to. -/
structure Axios where
  get : String → Except AxiosError AxiosResponse
  post : String → Payload → Except AxiosError AxiosResponse

/-! ## Effects -/

/-- One call of a library method by the program.  The socket.io emitters
(`io.emit`, `socket.emit`) are part of the vocabulary although `app.js` never
calls them. -/
inductive Effect where
  | axiosGet (url : String)
  | axiosPost (url : String) (data : Payload)
  | render (view : String) (nodes : String)
  | redirect (path : String)
  | send (body : String)
  | statusSend (status : Nat) (body : String)
  | consoleError (error : AxiosError)
  | consoleLog (message : String)
  | socketOn (socket : Nat) (event : String)
  | socketEmit (socket : Nat) (event : String) (data : String)
  | ioEmit (event : String) (data : String)
  deriving DecidableEq, Repr

/-- A call to the authoritative store. -/
def Effect.isStoreCall : Effect → Bool
  | .axiosGet _ => true
  | .axiosPost _ _ => true
  | _ => false

/-- A write call to the store. -/
def Effect.isStoreWrite : Effect → Bool
  | .axiosPost _ _ => true
  | _ => false

/-- An HTTP response sent to the caller. -/
def Effect.isResponse : Effect → Bool
  | .render _ _ => true
  | .redirect _ => true
  | .send _ => true
  | .statusSend _ _ => true
  | _ => false

/-- A message sent on a push channel, to one subscriber or to all of them. -/
def Effect.isEmit : Effect → Bool
  | .socketEmit _ _ _ => true
  | .ioEmit _ _ => true
  | _ => false

/-- A line written to the process console. -/
def Effect.isConsole : Effect → Bool
  | .consoleError _ => true
  | .consoleLog _ => true
  | _ => false

/-- The status of an HTTP response: Express answers `200` unless `res.status`
was called, and `res.redirect(path)` answers `302`. -/
def Effect.responseStatus : Effect → Option Nat
  | .render _ _ => some 200
  | .redirect _ => some 302
  | .send _ => some 200
  | .statusSend status _ => some status
  | _ => none

/-! ## Handler computations -/

/-- An asynchronous handler body: it extends the trace of effects performed so
far and either completes with a value or throws. -/
def Js (α : Type) : Type := List Effect → Except AxiosError α × List Effect

/-- Completing with a value, no effect. -/
def Js.pure {α : Type} (a : α) : Js α := fun t => (.ok a, t)

/-- Sequencing: a throw of the first part skips the second. -/
def Js.bind {α β : Type} (m : Js α) (f : α → Js β) : Js β := fun t =>
  match m t with
  | (.ok a, t1) => f a t1
  | (.error e, t1) => (.error e, t1)

/-- The statement `throw e`. -/
def Js.throw {α : Type} (e : AxiosError) : Js α := fun t => (.error e, t)

/-- The statement `try { body } catch (error) { handler error }`: effects of the
body performed before the throw stay in the trace. -/
def Js.tryCatch {α : Type} (body : Js α) (handler : AxiosError → Js α) : Js α := fun t =>
  match body t with
  | (.ok a, t1) => (.ok a, t1)
  | (.error e, t1) => handler e t1

instance : Monad Js where
  pure := Js.pure
  bind := Js.bind

instance : MonadExcept AxiosError Js where
  throw := Js.throw
  tryCatch := Js.tryCatch

/-- Performing one effect. -/
def perform (e : Effect) : Js Unit := fun t => (.ok (), t ++ [e])

/-- The trace of a handler started on an empty trace. -/
def Js.trace {α : Type} (m : Js α) : List Effect := (m []).2

/-- Whether a handler started on an empty trace ends without an uncaught throw. -/
def Js.completes {α : Type} (m : Js α) : Bool :=
  match (m []).1 with
  | .ok _ => true
  | .error _ => false

/-- The expression `await axios.get(url)`: the call is made, then the promise
settles; a rejection is thrown. -/
def awaitGet (axios : Axios) (url : String) : Js AxiosResponse := do
  perform (.axiosGet url)
  match axios.get url with
  | .ok response => pure response
  | .error error => throw error

/-- The expression `await axios.post(url, data)`. -/
def awaitPost (axios : Axios) (url : String) (data : Payload) : Js AxiosResponse := do
  perform (.axiosPost url data)
  match axios.post url data with
  | .ok response => pure response
  | .error error => throw error

/-! ## The program -/

/-- The constant `API_BASE_URL`. -/
def API_BASE_URL : String := "http://localhost:5080"

/-- The parsed body of a `POST /add` request. -/
structure AddBody where
  key : String
  value : String
  deriving DecidableEq, Repr

/-- A `POST /add` request. -/
structure AddRequest where
  body : AddBody
  deriving DecidableEq, Repr

/-- The route parameters of a `GET /get/:key` request. -/
structure GetParams where
  key : String
  deriving DecidableEq, Repr

/-- A `GET /get/:key` request. -/
structure GetRequest where
  params : GetParams
  deriving DecidableEq, Repr

/-- The handler of `app.get('/')`. -/
def indexHandler (axios : Axios) : Js Unit :=
  try
    let nodesResponse ← awaitGet axios (API_BASE_URL ++ "/nodes")
    let nodes := nodesResponse.data
    perform (.render "index" nodes)
  catch error =>
    perform (.consoleError error)
    perform (.statusSend 500 "Error fetching nodes")

/-- The handler of `app.post('/add')`. -/
def addHandler (axios : Axios) (req : AddRequest) : Js Unit :=
  let key := req.body.key
  let value := req.body.value
  try
    let _ ← awaitPost axios (API_BASE_URL ++ "/add/" ++ key) { value := value }
    perform (.redirect "/")
  catch error =>
    perform (.consoleError error)
    perform (.statusSend 500 "Error adding key-value pair")

/-- The handler of `app.get('/get/:key')`. -/
def getHandler (axios : Axios) (req : GetRequest) : Js Unit :=
  let key := req.params.key
  try
    let response ← awaitGet axios (API_BASE_URL ++ "/get/" ++ key)
    perform (.send ("Value for key " ++ key ++ ": " ++ response.data))
  catch error =>
    perform (.consoleError error)
    perform (.statusSend 500 "Error retrieving value")

/-- The listener of `socket.on('disconnect')`. -/
def onDisconnect : Js Unit :=
  perform (.consoleLog "Client disconnected")

/-- The listener of `io.on('connection')`, for the socket of the new connection. -/
def onConnection (socket : Nat) : Js Unit := do
  perform (.consoleLog "New client connected")
  perform (.socketOn socket "disconnect")

/-! ## Observations on traces -/

/-- The calls to the authoritative store, in order. -/
def storeCalls (t : List Effect) : List Effect := t.filter Effect.isStoreCall

/-- The write calls to the authoritative store, in order. -/
def storeWrites (t : List Effect) : List Effect := t.filter Effect.isStoreWrite

/-- The HTTP responses sent to the caller, in order. -/
def responses (t : List Effect) : List Effect := t.filter Effect.isResponse

/-- The messages sent on push channels, in order. -/
def emissions (t : List Effect) : List Effect := t.filter Effect.isEmit

/-- The effects on the store, on the caller and on push channels, in order: the
trace without the lines of the process console. -/
def protocolTrace (t : List Effect) : List Effect := t.filter (fun e => !e.isConsole)

/-- Whether `r` occurs in the trace and some emission occurs before its first
occurrence. -/
def emitsBefore (t : List Effect) (r : Effect) : Bool :=
  t.contains r && (t.takeWhile (fun e => e != r)).any Effect.isEmit

/-! ## Concrete stores -/

/-- A store that acknowledges every call. -/
def ackStore : Axios where
  get := fun _ => .ok { status := 200, data := "[]" }
  post := fun _ _ => .ok { status := 200, data := "stored" }

/-- A store that declines every write with status 400 and reports every read key
as not found with status 404. -/
def rejectStore : Axios where
  get := fun _ => .error (.response 404 "Key not found")
  post := fun _ _ => .error (.response 400 "rejected")

/-- A store no call to which observes a response. -/
def timeoutStore : Axios where
  get := fun _ => .error .timeout
  post := fun _ _ => .error .timeout

/-- The request `POST /add` with key `a` and value `1`. -/
def sampleAdd : AddRequest := { body := { key := "a", value := "1" } }

/-- The request `GET /get/a`. -/
def sampleGet : GetRequest := { params := { key := "a" } }

/-! ## Traces of the handlers -/

theorem indexHandler_trace_ok (axios : Axios) (r : AxiosResponse)
    (h : axios.get (API_BASE_URL ++ "/nodes") = .ok r) :
    (indexHandler axios).trace =
      [.axiosGet (API_BASE_URL ++ "/nodes"), .render "index" r.data] := by
  simp [indexHandler, Js.trace, tryCatch, tryCatchThe, MonadExcept.tryCatch, Js.tryCatch,
    bind, Js.bind, awaitGet, perform, pure, Js.pure, h]

theorem indexHandler_trace_error (axios : Axios) (e : AxiosError)
    (h : axios.get (API_BASE_URL ++ "/nodes") = .error e) :
    (indexHandler axios).trace =
      [.axiosGet (API_BASE_URL ++ "/nodes"), .consoleError e,
        .statusSend 500 "Error fetching nodes"] := by
  simp [indexHandler, Js.trace, tryCatch, tryCatchThe, MonadExcept.tryCatch, Js.tryCatch,
    bind, Js.bind, awaitGet, perform, throw, throwThe, MonadExcept.throw, Js.throw, h]

theorem addHandler_trace_ok (axios : Axios) (req : AddRequest) (r : AxiosResponse)
    (h : axios.post (API_BASE_URL ++ "/add/" ++ req.body.key) ⟨req.body.value⟩ = .ok r) :
    (addHandler axios req).trace =
      [.axiosPost (API_BASE_URL ++ "/add/" ++ req.body.key) ⟨req.body.value⟩,
        .redirect "/"] := by
  simp [addHandler, Js.trace, tryCatch, tryCatchThe, MonadExcept.tryCatch, Js.tryCatch,
    bind, Js.bind, awaitPost, perform, pure, Js.pure, h]

theorem addHandler_trace_error (axios : Axios) (req : AddRequest) (e : AxiosError)
    (h : axios.post (API_BASE_URL ++ "/add/" ++ req.body.key) ⟨req.body.value⟩ = .error e) :
    (addHandler axios req).trace =
      [.axiosPost (API_BASE_URL ++ "/add/" ++ req.body.key) ⟨req.body.value⟩,
        .consoleError e, .statusSend 500 "Error adding key-value pair"] := by
  simp [addHandler, Js.trace, tryCatch, tryCatchThe, MonadExcept.tryCatch, Js.tryCatch,
    bind, Js.bind, awaitPost, perform, throw, throwThe, MonadExcept.throw, Js.throw, h]

theorem getHandler_trace_ok (axios : Axios) (req : GetRequest) (r : AxiosResponse)
    (h : axios.get (API_BASE_URL ++ "/get/" ++ req.params.key) = .ok r) :
    (getHandler axios req).trace =
      [.axiosGet (API_BASE_URL ++ "/get/" ++ req.params.key),
        .send ("Value for key " ++ req.params.key ++ ": " ++ r.data)] := by
  simp [getHandler, Js.trace, tryCatch, tryCatchThe, MonadExcept.tryCatch, Js.tryCatch,
    bind, Js.bind, awaitGet, perform, pure, Js.pure, h]

theorem getHandler_trace_error (axios : Axios) (req : GetRequest) (e : AxiosError)
    (h : axios.get (API_BASE_URL ++ "/get/" ++ req.params.key) = .error e) :
    (getHandler axios req).trace =
      [.axiosGet (API_BASE_URL ++ "/get/" ++ req.params.key), .consoleError e,
        .statusSend 500 "Error retrieving value"] := by
  simp [getHandler, Js.trace, tryCatch, tryCatchThe, MonadExcept.tryCatch, Js.tryCatch,
    bind, Js.bind, awaitGet, perform, throw, throwThe, MonadExcept.throw, Js.throw, h]

theorem onConnection_trace (socket : Nat) :
    (onConnection socket).trace =
      [.consoleLog "New client connected", .socketOn socket "disconnect"] := by
  simp [onConnection, Js.trace, bind, Js.bind, perform]

/-! ## The mutation handler `POST /add` -/

/-- Claim C1, as stated, fails: with a store that acknowledges the write, the
trace of `POST /add` for key `a` and value `1` holds the redirect but no emission
before it, and no emission at all. -/
theorem add_acked_emits_nothing :
    ackStore.post (API_BASE_URL ++ "/add/" ++ sampleAdd.body.key) ⟨sampleAdd.body.value⟩
        = .ok { status := 200, data := "stored" } ∧
      (Effect.redirect "/") ∈ (addHandler ackStore sampleAdd).trace ∧
      emitsBefore (addHandler ackStore sampleAdd).trace (.redirect "/") = false ∧
      emissions (addHandler ackStore sampleAdd).trace = [] :=
  ⟨rfl, by decide, by decide, by decide⟩

/-- Claim C1, amended: when the store acknowledges the write, the ordered trace
of `POST /add` is the store write call followed by the success redirect, and it
contains no emission to push subscribers. -/
theorem add_acked_trace (axios : Axios) (req : AddRequest) (r : AxiosResponse)
    (h : axios.post (API_BASE_URL ++ "/add/" ++ req.body.key) ⟨req.body.value⟩ = .ok r) :
    (addHandler axios req).trace =
        [.axiosPost (API_BASE_URL ++ "/add/" ++ req.body.key) ⟨req.body.value⟩,
          .redirect "/"] ∧
      emissions (addHandler axios req).trace = [] := by
  rw [addHandler_trace_ok axios req r h]
  exact ⟨rfl, rfl⟩

/-- Witness of `add_acked_trace` at the acknowledging store. -/
theorem add_acked_trace_witness :
    (addHandler ackStore sampleAdd).trace =
        [.axiosPost "http://localhost:5080/add/a" ⟨"1"⟩, .redirect "/"] ∧
      emissions (addHandler ackStore sampleAdd).trace = [] :=
  add_acked_trace ackStore sampleAdd { status := 200, data := "stored" } rfl

/-- Claim C2: `POST /add` answers with the redirect to `/` exactly when the store
write call succeeded, and with status 500 and body `Error adding key-value pair`
exactly when it failed; the redirect occurs in the trace only on success. -/
theorem add_response_iff_store_result (axios : Axios) (req : AddRequest) :
    (responses (addHandler axios req).trace = [.redirect "/"] ↔
        ∃ r, axios.post (API_BASE_URL ++ "/add/" ++ req.body.key) ⟨req.body.value⟩ = .ok r) ∧
      (responses (addHandler axios req).trace
          = [.statusSend 500 "Error adding key-value pair"] ↔
        ∃ e, axios.post (API_BASE_URL ++ "/add/" ++ req.body.key) ⟨req.body.value⟩
          = .error e) ∧
      ((Effect.redirect "/") ∈ (addHandler axios req).trace ↔
        ∃ r, axios.post (API_BASE_URL ++ "/add/" ++ req.body.key) ⟨req.body.value⟩ = .ok r) := by
  cases h : axios.post (API_BASE_URL ++ "/add/" ++ req.body.key) ⟨req.body.value⟩ with
  | ok r =>
    rw [addHandler_trace_ok axios req r h]
    simp [responses, Effect.isResponse]
  | error e =>
    rw [addHandler_trace_error axios req e h]
    simp [responses, Effect.isResponse]

/-- Claim C3: when the store write fails, whatever the reason, `POST /add` emits
nothing on any push channel, and its effects on the store, the caller and the
push channels are the store call followed by the error response; the only other
entry of the trace is the `console.error` line. -/
theorem add_failed_no_emission (axios : Axios) (req : AddRequest) (e : AxiosError)
    (h : axios.post (API_BASE_URL ++ "/add/" ++ req.body.key) ⟨req.body.value⟩ = .error e) :
    emissions (addHandler axios req).trace = [] ∧
      protocolTrace (addHandler axios req).trace =
        [.axiosPost (API_BASE_URL ++ "/add/" ++ req.body.key) ⟨req.body.value⟩,
          .statusSend 500 "Error adding key-value pair"] ∧
      (addHandler axios req).trace =
        [.axiosPost (API_BASE_URL ++ "/add/" ++ req.body.key) ⟨req.body.value⟩,
          .consoleError e, .statusSend 500 "Error adding key-value pair"] := by
  rw [addHandler_trace_error axios req e h]
  exact ⟨rfl, rfl, rfl⟩

/-- Witness of `add_failed_no_emission` at a write the store rejects. -/
theorem add_failed_no_emission_witness :
    emissions (addHandler rejectStore sampleAdd).trace = [] ∧
      protocolTrace (addHandler rejectStore sampleAdd).trace =
        [.axiosPost "http://localhost:5080/add/a" ⟨"1"⟩,
          .statusSend 500 "Error adding key-value pair"] ∧
      (addHandler rejectStore sampleAdd).trace =
        [.axiosPost "http://localhost:5080/add/a" ⟨"1"⟩,
          .consoleError (.response 400 "rejected"),
          .statusSend 500 "Error adding key-value pair"] :=
  add_failed_no_emission rejectStore sampleAdd (.response 400 "rejected") rfl

/-- Claim C4: whatever the store answers, the store calls of `POST /add` are one
write call, whose target is `API_BASE_URL` followed by `/add/` and the key and
whose payload carries the value of the request unchanged. -/
theorem add_forwards_exact_pair (axios : Axios) (req : AddRequest) :
    storeCalls (addHandler axios req).trace =
        [.axiosPost (API_BASE_URL ++ "/add/" ++ req.body.key) { value := req.body.value }] := by
  cases h : axios.post (API_BASE_URL ++ "/add/" ++ req.body.key) ⟨req.body.value⟩ with
  | ok r => rw [addHandler_trace_ok axios req r h]; rfl
  | error e => rw [addHandler_trace_error axios req e h]; rfl

/-- Claim C6: when the store answers the write with an explicit error, `POST /add`
issues exactly one write call to the store. -/
theorem add_store_error_one_write (axios : Axios) (req : AddRequest)
    (status : Nat) (data : String)
    (h : axios.post (API_BASE_URL ++ "/add/" ++ req.body.key) ⟨req.body.value⟩
      = .error (.response status data)) :
    (storeWrites (addHandler axios req).trace).length = 1 ∧
      storeWrites (addHandler axios req).trace =
        [.axiosPost (API_BASE_URL ++ "/add/" ++ req.body.key) ⟨req.body.value⟩] := by
  rw [addHandler_trace_error axios req _ h]
  exact ⟨rfl, rfl⟩

/-- Witness of `add_store_error_one_write` at a write the store rejects. -/
theorem add_store_error_one_write_witness :
    (storeWrites (addHandler rejectStore sampleAdd).trace).length = 1 ∧
      storeWrites (addHandler rejectStore sampleAdd).trace =
        [.axiosPost "http://localhost:5080/add/a" ⟨"1"⟩] :=
  add_store_error_one_write rejectStore sampleAdd 400 "rejected" rfl

/-- Claim C7, as stated, fails: when the write attempt times out, the trace of
`POST /add` for key `a` and value `1` holds one write call, not two. -/
theorem add_timeout_single_write :
    timeoutStore.post (API_BASE_URL ++ "/add/" ++ sampleAdd.body.key) ⟨sampleAdd.body.value⟩
        = .error .timeout ∧
      (storeWrites (addHandler timeoutStore sampleAdd).trace).length = 1 ∧
      (storeWrites (addHandler timeoutStore sampleAdd).trace).length ≠ 2 :=
  ⟨rfl, by decide, by decide⟩

/-- Claim C7, amended: when the write attempt ends in a transport-level timeout,
`POST /add` does not retry: exactly one write call is issued to the store, and it
is followed by the error response to the caller. -/
theorem add_timeout_no_retry (axios : Axios) (req : AddRequest)
    (h : axios.post (API_BASE_URL ++ "/add/" ++ req.body.key) ⟨req.body.value⟩
      = .error .timeout) :
    (storeWrites (addHandler axios req).trace).length = 1 ∧
      (addHandler axios req).trace =
        [.axiosPost (API_BASE_URL ++ "/add/" ++ req.body.key) ⟨req.body.value⟩,
          .consoleError .timeout, .statusSend 500 "Error adding key-value pair"] := by
  rw [addHandler_trace_error axios req _ h]
  exact ⟨rfl, rfl⟩

/-- Witness of `add_timeout_no_retry` at the store that never answers. -/
theorem add_timeout_no_retry_witness :
    (storeWrites (addHandler timeoutStore sampleAdd).trace).length = 1 ∧
      (addHandler timeoutStore sampleAdd).trace =
        [.axiosPost "http://localhost:5080/add/a" ⟨"1"⟩,
          .consoleError .timeout, .statusSend 500 "Error adding key-value pair"] :=
  add_timeout_no_retry timeoutStore sampleAdd rfl

/-! ## The read handlers `GET /` and `GET /get/:key` -/

/-- Claim C5, as stated, fails: when the store answers the read of key `a` with
status 404, `GET /get/a` responds once, with status 500, and no response of its
trace has status 404. -/
theorem get_not_found_answers_500 :
    rejectStore.get (API_BASE_URL ++ "/get/" ++ sampleGet.params.key)
        = .error (.response 404 "Key not found") ∧
      (responses (getHandler rejectStore sampleGet).trace).map Effect.responseStatus
        = [some 500] ∧
      some 404 ∉ (getHandler rejectStore sampleGet).trace.map Effect.responseStatus :=
  ⟨rfl, by decide, by decide⟩

/-- Claim C5, amended: when the read call to the store fails, a not-found report
included, `GET /get/:key` responds with status 500 and body
`Error retrieving value`, and no response of its trace has status 404. -/
theorem get_failed_answers_500 (axios : Axios) (req : GetRequest) (e : AxiosError)
    (h : axios.get (API_BASE_URL ++ "/get/" ++ req.params.key) = .error e) :
    responses (getHandler axios req).trace = [.statusSend 500 "Error retrieving value"] ∧
      (responses (getHandler axios req).trace).map Effect.responseStatus = [some 500] ∧
      some 404 ∉ (getHandler axios req).trace.map Effect.responseStatus := by
  rw [getHandler_trace_error axios req e h]
  refine ⟨rfl, rfl, ?_⟩
  simp [Effect.responseStatus]

/-- Witness of `get_failed_answers_500` at a store answering the read with 404. -/
theorem get_failed_answers_500_witness :
    responses (getHandler rejectStore sampleGet).trace
        = [.statusSend 500 "Error retrieving value"] ∧
      (responses (getHandler rejectStore sampleGet).trace).map Effect.responseStatus
        = [some 500] ∧
      some 404 ∉ (getHandler rejectStore sampleGet).trace.map Effect.responseStatus :=
  get_failed_answers_500 rejectStore sampleGet (.response 404 "Key not found") rfl

/-- Claim C8: whatever the store answers, the store calls of `GET /` and of
`GET /get/:key` are one read call each, neither handler issues a write call, and
neither emits anything on a push channel. -/
theorem reads_only_read (axios : Axios) (req : GetRequest) :
    (storeCalls (indexHandler axios).trace = [.axiosGet (API_BASE_URL ++ "/nodes")] ∧
        storeWrites (indexHandler axios).trace = [] ∧
        emissions (indexHandler axios).trace = []) ∧
      (storeCalls (getHandler axios req).trace
          = [.axiosGet (API_BASE_URL ++ "/get/" ++ req.params.key)] ∧
        storeWrites (getHandler axios req).trace = [] ∧
        emissions (getHandler axios req).trace = []) := by
  constructor
  · cases h : axios.get (API_BASE_URL ++ "/nodes") with
    | ok r => rw [indexHandler_trace_ok axios r h]; exact ⟨rfl, rfl, rfl⟩
    | error e => rw [indexHandler_trace_error axios e h]; exact ⟨rfl, rfl, rfl⟩
  · cases h : axios.get (API_BASE_URL ++ "/get/" ++ req.params.key) with
    | ok r => rw [getHandler_trace_ok axios req r h]; exact ⟨rfl, rfl, rfl⟩
    | error e => rw [getHandler_trace_error axios req e h]; exact ⟨rfl, rfl, rfl⟩

/-- Claim C10: whatever the store answers, each of the handlers of `GET /`,
`POST /add` and `GET /get/:key` ends without an uncaught throw and sends exactly
one HTTP response. -/
theorem handlers_respond_once (axios : Axios) (add : AddRequest) (get : GetRequest) :
    ((indexHandler axios).completes = true ∧
        (responses (indexHandler axios).trace).length = 1) ∧
      ((addHandler axios add).completes = true ∧
        (responses (addHandler axios add).trace).length = 1) ∧
      ((getHandler axios get).completes = true ∧
        (responses (getHandler axios get).trace).length = 1) := by
  refine ⟨⟨?_, ?_⟩, ⟨?_, ?_⟩, ⟨?_, ?_⟩⟩
  · cases h : axios.get (API_BASE_URL ++ "/nodes") <;>
      simp [indexHandler, Js.completes, tryCatch, tryCatchThe, MonadExcept.tryCatch,
        Js.tryCatch, bind, Js.bind, awaitGet, perform, pure, Js.pure, throw, throwThe,
        MonadExcept.throw, Js.throw, h]
  · cases h : axios.get (API_BASE_URL ++ "/nodes") with
    | ok r => rw [indexHandler_trace_ok axios r h]; rfl
    | error e => rw [indexHandler_trace_error axios e h]; rfl
  · cases h : axios.post (API_BASE_URL ++ "/add/" ++ add.body.key) ⟨add.body.value⟩ <;>
      simp [addHandler, Js.completes, tryCatch, tryCatchThe, MonadExcept.tryCatch,
        Js.tryCatch, bind, Js.bind, awaitPost, perform, pure, Js.pure, throw, throwThe,
        MonadExcept.throw, Js.throw, h]
  · cases h : axios.post (API_BASE_URL ++ "/add/" ++ add.body.key) ⟨add.body.value⟩ with
    | ok r => rw [addHandler_trace_ok axios add r h]; rfl
    | error e => rw [addHandler_trace_error axios add e h]; rfl
  · cases h : axios.get (API_BASE_URL ++ "/get/" ++ get.params.key) <;>
      simp [getHandler, Js.completes, tryCatch, tryCatchThe, MonadExcept.tryCatch,
        Js.tryCatch, bind, Js.bind, awaitGet, perform, pure, Js.pure, throw, throwThe,
        MonadExcept.throw, Js.throw, h]
  · cases h : axios.get (API_BASE_URL ++ "/get/" ++ get.params.key) with
    | ok r => rw [getHandler_trace_ok axios get r h]; rfl
    | error e => rw [getHandler_trace_error axios get e h]; rfl

/-! ## The push connection handler -/

/-- Claim C9, as stated, fails: the connection handler run for socket `7` sends
no message on any push channel, so no `sync` message either. -/
theorem connection_emits_nothing :
    emissions (onConnection 7).trace = [] ∧
      (Effect.socketEmit 7 "sync" "0") ∉ (onConnection 7).trace := by
  decide

/-- Claim C9, amended: for every newly established push connection, the
connection handler writes `New client connected` to the console and registers a
`disconnect` listener on the socket; it sends no message to the subscriber, and
the listener only writes `Client disconnected` to the console. -/
theorem connection_logs_and_listens (socket : Nat) :
    (onConnection socket).trace =
        [.consoleLog "New client connected", .socketOn socket "disconnect"] ∧
      emissions (onConnection socket).trace = [] ∧
      onDisconnect.trace = [.consoleLog "Client disconnected"] := by
  rw [onConnection_trace socket]
  exact ⟨rfl, rfl, rfl⟩

end Frontend
